import Mathlib

/-!
Verification of the message-aggregation / reply-scheduling pipeline of the
daiyosei-bot-lite repository, as a shallow embedding in Lean 4.

Source files embedded here:
 - `src/bot/message_aggregator.py` (priorities, window timing, flush logic)
 - `src/bot/handler.py` (dual-timer reply mode, room queue, dedup context hash,
   timeout fallback)
 - `src/throttle/rate_limiter.py` and `src/config.py` (token buckets, multi-level check)

Time is modelled as `ℚ` (seconds).  Fallible Python code is modelled with
`Except`; stateful code is modelled by explicit state passing.
-/

namespace Daiyosei

/-! ## Message priorities (`MessagePriority` in message_aggregator.py) -/

/-- `MessagePriority(Enum)`: CRITICAL=1, HIGH=2, MEDIUM=3, LOW=4, NONE=5. -/
inductive MessagePriority where
  | critical
  | high
  | medium
  | low
  | none_
deriving DecidableEq, Repr

/-- The `.value` of the Python enum member. -/
def MessagePriority.value : MessagePriority → Nat
  | .critical => 1
  | .high => 2
  | .medium => 3
  | .low => 4
  | .none_ => 5

/-! ## Strings: Python `in`, `.lower()`, `.strip()`, `.startswith` -/

/-- `needle` is a prefix of `hay` (over character lists). -/
def startsWithChars : List Char → List Char → Bool
  | _, [] => true
  | [], _ :: _ => false
  | a :: as, b :: bs => b == a && startsWithChars as bs

/-- Python `needle in hay` substring test (over character lists). -/
def containsChars (hay needle : List Char) : Bool :=
  match hay with
  | [] => needle.isEmpty
  | c :: t => startsWithChars (c :: t) needle || containsChars t needle

/-- Python `needle in hay` on strings. -/
def strContains (hay needle : String) : Bool :=
  containsChars hay.data needle.data

/-- Python `str.lower()` (per-character lowercasing; identity on the CJK
keywords used by the source). -/
def strLower (s : String) : String := ⟨s.data.map Char.toLower⟩

/-! ## Priority evaluation (`MessageAggregator.evaluate_priority`) -/

/-- The urgency keywords hard-coded in `evaluate_priority`. -/
def urgentKeywords : List String := ["急", "马上", "快", "立刻", "帮我", "救命"]

/-- The default trigger keywords (`MessageAggregator._keywords`). -/
def defaultKeywords : List String := ["琪露诺", "⑨", "笨蛋", "冰精", "bot"]

/-- `PendingMessage` dataclass (the `sender_role`/`is_group`/`raw_data`
fields play no role in the verified logic and are omitted). -/
structure PendingMessage where
  message_id : Int
  user_id : Int
  nickname : String
  content : String
  at_self : Bool
  reply_to_bot : Bool
  timestamp : ℚ
  priority : MessagePriority
deriving DecidableEq, Repr

/-- `MessageAggregator.evaluate_priority`. -/
def evaluate_priority (keywords : List String) (m : PendingMessage) : MessagePriority :=
  if m.at_self then
    if urgentKeywords.any (fun k => strContains m.content k) then .critical else .high
  else if m.reply_to_bot then .high
  else if keywords.any (fun k => strContains (strLower m.content) (strLower k)) then .medium
  else .low

/-! ## Aggregation window timing -/

/-- `MessageAggregator.NORMAL_WINDOW` (seconds). -/
def NORMAL_WINDOW : ℚ := 2

/-- `MessageAggregator.HIGH_PRIORITY_WINDOW` (seconds). -/
def HIGH_PRIORITY_WINDOW : ℚ := 1

/-- `MessageAggregator.MAX_WINDOW` (seconds). -/
def MAX_WINDOW : ℚ := 5

/-- The base window chosen by `_calculate_window_duration` from the priority of
the newly arrived message. -/
def base_window (p : MessagePriority) : ℚ :=
  if p = .critical ∨ p = .high then HIGH_PRIORITY_WINDOW else NORMAL_WINDOW

/-- `MessageAggregator._calculate_window_duration`:
`min(base, max(0, MAX_WINDOW - elapsed))` where `elapsed = now - first_time`. -/
def calculate_window_duration (first_time now : ℚ) (p : MessagePriority) : ℚ :=
  min (base_window p) (max 0 (MAX_WINDOW - (now - first_time)))

/-- The open aggregation window of one room: the time of the first message in
the window (`_first_message_time`) and the absolute time at which the pending
timer fires (arrival time of the last message plus the computed duration). -/
structure OpenWindow where
  firstTime : ℚ
  deadline : ℚ
deriving DecidableEq, Repr

/-- Aggregator state for a single room: the pending message list and the
window timer, if one is armed (`_pending_messages` / `_window_timers` /
`_first_message_time`). -/
structure AggState where
  pending : List PendingMessage
  window : Option OpenWindow
deriving DecidableEq, Repr

/-- Initial aggregator state: no pending messages, no timer. -/
def AggState.init : AggState := ⟨[], Option.none⟩

/-- An inbound event as received by `MessageAggregator.add_message`. -/
structure IncomingEvent where
  message_id : Int
  user_id : Int
  nickname : String
  content : String
  at_self : Bool
  reply_to_bot : Bool
  now : ℚ
deriving DecidableEq, Repr

/-- If the armed timer's deadline has passed, it has fired:
`_process_aggregated_messages` popped the pending list, the first-message time
and the timer entry before any later arrival is handled. -/
def expire_if_due (st : AggState) (now : ℚ) : AggState :=
  match st.window with
  | Option.none => st
  | Option.some w => if w.deadline ≤ now then ⟨[], Option.none⟩ else st

/-- The `PendingMessage` that `add_message` builds from an inbound event
(created with priority `NONE`, then `evaluate_priority` is applied). -/
def pending_of_event (keywords : List String) (e : IncomingEvent) : PendingMessage :=
  let m0 : PendingMessage :=
    { message_id := e.message_id, user_id := e.user_id, nickname := e.nickname,
      content := e.content, at_self := e.at_self, reply_to_bot := e.reply_to_bot,
      timestamp := e.now, priority := MessagePriority.none_ }
  { m0 with priority := evaluate_priority keywords m0 }

/-- `self._first_message_time` as read by `_calculate_window_duration`: the
recorded first-message time of the open window, or `now` for a fresh window. -/
def window_first_time (st : AggState) (now : ℚ) : ℚ :=
  match st.window with
  | Option.none => now
  | Option.some w => w.firstTime

/-- `MessageAggregator.add_message`: drop the bot's own messages, evaluate the
priority, append to the pending list, record the first-message time, and reset
the window timer to `now + _calculate_window_duration(...)`. -/
def add_message (botId : Int) (keywords : List String) (st0 : AggState)
    (e : IncomingEvent) : AggState :=
  if e.user_id = botId then st0
  else
    let st := expire_if_due st0 e.now
    let m := pending_of_event keywords e
    let firstTime := window_first_time st e.now
    { pending := st.pending ++ [m],
      window :=
        Option.some ⟨firstTime,
          e.now + calculate_window_duration firstTime e.now m.priority⟩ }

/-- Run the aggregator over a sequence of inbound events. -/
def run_aggregator (botId : Int) (keywords : List String)
    (evs : List IncomingEvent) : AggState :=
  evs.foldl (add_message botId keywords) AggState.init

/-- The window-bound invariant: an armed timer never fires later than
`MAX_WINDOW` after the first message of its window. -/
def WindowBounded (st : AggState) : Prop :=
  ∀ w : OpenWindow, st.window = Option.some w → w.deadline ≤ w.firstTime + MAX_WINDOW

/-! ## Window flush (`MessageAggregator._process_aggregated_messages`) -/

/-- Exceptions the flush can raise.  `min()` over two or more members of the
plain `MessagePriority(Enum)` raises `TypeError` (plain Python enums do not
support `<`; `min` compares even equal members); `min()` of an empty iterable
raises `ValueError`. -/
inductive PyError where
  | typeError
  | valueError
deriving DecidableEq, Repr

/-- `msg.priority in [CRITICAL, HIGH, MEDIUM]` — the trigger test of the flush. -/
def isTriggerPriority (p : MessagePriority) : Bool :=
  match p with
  | .critical => true
  | .high => true
  | .medium => true
  | _ => false

/-- `user_triggers[msg.user_id].append(msg)` on an insertion-ordered dict:
append `m` to its user's group, or open a new group at the end. -/
def addToGroups (gs : List (Int × List PendingMessage)) (m : PendingMessage) :
    List (Int × List PendingMessage) :=
  match gs with
  | [] => [(m.user_id, [m])]
  | (u, ms) :: rest =>
    if u = m.user_id then (u, ms ++ [m]) :: rest
    else (u, ms) :: addToGroups rest m

/-- The grouping loop of the flush: trigger messages grouped by user in
first-seen order (Python dicts preserve insertion order). -/
def groupTriggers (msgs : List PendingMessage) : List (Int × List PendingMessage) :=
  msgs.foldl (fun gs m => if isTriggerPriority m.priority then addToGroups gs m else gs) []

/-- Python `min(...)` over a list of plain-`Enum` priorities:
returns the sole element of a singleton without comparing; raises `TypeError`
on the first `<` whenever there are two or more elements; raises `ValueError`
on an empty iterable. -/
def pyMinPriority : List MessagePriority → Except PyError MessagePriority
  | [] => Except.error PyError.valueError
  | [p] => Except.ok p
  | _ :: _ :: _ => Except.error PyError.typeError

/-- `ReplyTarget` dataclass. -/
structure ReplyTarget where
  user_id : Int
  nickname : String
  messages : List PendingMessage
  highest_priority : MessagePriority
deriving DecidableEq, Repr

/-- `AggregatedTask` dataclass. -/
structure AggregatedTask where
  group_id : Int
  reply_targets : List ReplyTarget
  context_messages : List PendingMessage
  all_messages : List PendingMessage
  aggregated_at : ℚ
deriving DecidableEq, Repr

/-- Insert `x` into `l`, after every element `y` with `le y x` — the insertion
step of a stable ascending sort. -/
def insertSorted (le : α → α → Bool) (x : α) : List α → List α
  | [] => [x]
  | y :: ys => if le y x then y :: insertSorted le x ys else x :: y :: ys

/-- Stable ascending sort; a stable sort's output is uniquely determined, so
this agrees with Python's (stable) `list.sort` / `sorted`. -/
def stableSort (le : α → α → Bool) (l : List α) : List α :=
  l.foldl (fun acc x => insertSorted le x acc) []

/-- `user_msgs[0].nickname` (groups are always nonempty). -/
def nicknameOfGroup : List PendingMessage → String
  | [] => ""
  | m :: _ => m.nickname

/-- Build one `ReplyTarget` for a user's trigger-message group:
`highest = min(m.priority for m in user_msgs)` (which raises for groups of two
or more, see `pyMinPriority`), messages sorted by arrival timestamp. -/
def buildTarget (u : Int) (ms : List PendingMessage) : Except PyError ReplyTarget :=
  match pyMinPriority (ms.map (fun m => m.priority)) with
  | Except.error e => Except.error e
  | Except.ok highest =>
    Except.ok
      { user_id := u,
        nickname := nicknameOfGroup ms,
        messages := stableSort (fun a b => decide (a.timestamp ≤ b.timestamp)) ms,
        highest_priority := highest }

/-- `MessageAggregator._process_aggregated_messages` on the popped pending
list of one room.  `Except.ok Option.none` means the batch was discarded with
no task: the registered task handler is invoked exactly when the result is
`Except.ok (Option.some task)`.  An `Except.error` is the uncaught Python
exception escaping the flush (no task emitted, batch lost). -/
def process_aggregated_messages (gid : Int) (now : ℚ) (msgs : List PendingMessage) :
    Except PyError (Option AggregatedTask) :=
  if msgs.isEmpty then Except.ok Option.none
  else
    let groups := groupTriggers msgs
    let contextMsgs := msgs.filter (fun m => ¬ isTriggerPriority m.priority)
    if groups.isEmpty then Except.ok Option.none
    else
      match groups.mapM (fun g => buildTarget g.1 g.2) with
      | Except.error e => Except.error e
      | Except.ok targets =>
        Except.ok (Option.some
          { group_id := gid,
            reply_targets :=
              stableSort (fun a b =>
                decide (a.highest_priority.value ≤ b.highest_priority.value)) targets,
            context_messages := contextMsgs,
            all_messages := stableSort (fun a b => decide (a.timestamp ≤ b.timestamp)) msgs,
            aggregated_at := now })

/-! ## Reply-mode dual-timer state machine (`GameHandler`, handler.py) -/

/-- `GameHandler.SHORT_TIMER_DELAY` (seconds). -/
def SHORT_TIMER_DELAY : ℚ := 5

/-- `GameHandler.LONG_TIMER_DURATION` (seconds). -/
def LONG_TIMER_DURATION : ℚ := 45

/-- One room's entry in `GameHandler._reply_mode_states`. -/
structure ReplyModeState where
  is_group : Bool
  long_timer_active : Bool
  long_timer_start : ℚ
  short_timer_pending : Bool
  short_timer_start : ℚ
deriving DecidableEq, Repr

/-- `GameHandler._activate_reply_mode`: create the room's entry if absent and
overwrite all timer fields (long timer on, short timer off). -/
def activate_reply_mode (_st : Option ReplyModeState) (isGroup : Bool) (now : ℚ) :
    Option ReplyModeState :=
  Option.some
    { is_group := isGroup,
      long_timer_active := true,
      long_timer_start := now,
      short_timer_pending := false,
      short_timer_start := 0 }

/-- `GameHandler._activate_short_timer`: no-op when the room has no entry or
the long timer is inactive; otherwise reset the long timer and arm the short
timer. -/
def activate_short_timer (st : Option ReplyModeState) (now : ℚ) :
    Option ReplyModeState :=
  match st with
  | Option.none => Option.none
  | Option.some s =>
    if ¬ s.long_timer_active then Option.some s
    else Option.some
      { s with
        long_timer_start := now,
        short_timer_pending := true,
        short_timer_start := now }

/-- `GameHandler._reset_reply_mode_timers`: calls `_activate_short_timer` only
when the room's entry exists with the long timer active. -/
def reset_reply_mode_timers (st : Option ReplyModeState) (now : ℚ) :
    Option ReplyModeState :=
  match st with
  | Option.none => Option.none
  | Option.some s =>
    if s.long_timer_active then activate_short_timer (Option.some s) now
    else Option.some s

/-- The per-tick environment of `_reply_mode_loop` for one room: the scan
time, the room's quiet-mode bound (`_group_quiet_until.get(group_id, 0)`), and
the facts about the room's last context message that the fire path inspects. -/
structure TickEnv where
  now : ℚ
  quiet_until : ℚ
  has_context : Bool
  last_is_bot : Bool
  last_replied : Bool
deriving DecidableEq, Repr

/-- One iteration of the `_reply_mode_loop` body for one room: close the
window when `now - long_timer_start > LONG_TIMER_DURATION`; otherwise, when
the short timer is armed and `SHORT_TIMER_DELAY` has elapsed, disarm it (all
three exits of the fire path clear `short_timer_pending`, whether or not a
follow-up evaluation is dispatched). -/
def reply_mode_tick (st : Option ReplyModeState) (env : TickEnv) :
    Option ReplyModeState :=
  match st with
  | Option.none => Option.none
  | Option.some s =>
    if ¬ s.long_timer_active then Option.some s
    else if env.now < env.quiet_until then Option.some s
    else if LONG_TIMER_DURATION < env.now - s.long_timer_start then
      Option.some { s with long_timer_active := false, short_timer_pending := false }
    else if ¬ s.short_timer_pending then Option.some s
    else if env.now - s.short_timer_start < SHORT_TIMER_DELAY then Option.some s
    else if env.has_context && env.last_is_bot then
      Option.some { s with short_timer_pending := false }
    else if env.has_context && env.last_replied then
      Option.some { s with short_timer_pending := false }
    else
      Option.some { s with short_timer_pending := false }

/-- The operations that touch one room's reply-mode state. -/
inductive ReplyModeStep where
  | activateLong (isGroup : Bool) (now : ℚ)
  | resetTimers (now : ℚ)
  | activateShort (now : ℚ)
  | tick (env : TickEnv)
deriving DecidableEq, Repr

/-- Apply one reply-mode operation. -/
def applyReplyModeStep (st : Option ReplyModeState) : ReplyModeStep → Option ReplyModeState
  | .activateLong g t => activate_reply_mode st g t
  | .resetTimers t => reset_reply_mode_timers st t
  | .activateShort t => activate_short_timer st t
  | .tick env => reply_mode_tick st env

/-- Run a sequence of reply-mode operations from the initial state (no entry
in `_reply_mode_states`). -/
def run_reply_mode (steps : List ReplyModeStep) : Option ReplyModeState :=
  steps.foldl applyReplyModeStep Option.none

/-- The dual-timer invariant: the short timer is never armed while the long
window is closed. -/
def ShortImpliesLong : Option ReplyModeState → Prop
  | Option.none => True
  | Option.some s => s.short_timer_pending = true → s.long_timer_active = true

/-! ## Room queue (`GameHandler._get_or_create_queue` / `_enqueue_reply_task`) -/

/-- The `maxsize` of every room's `asyncio.Queue` in `_get_or_create_queue`. -/
def QUEUE_MAXSIZE : Nat := 5

/-- A task descriptor in a room's queue (`task_data` dict: its `type` key and
an identifying payload). -/
structure QueueTask where
  task_type : String
  task_id : Int
deriving DecidableEq, Repr

/-- `GameHandler._enqueue_reply_task`: `put_nowait` appends in FIFO position
and returns `true`; on a full queue (`asyncio.QueueFull`) the task is dropped
and `false` is returned. -/
def enqueue_reply_task (queue : List QueueTask) (task : QueueTask) :
    Bool × List QueueTask :=
  if queue.length < QUEUE_MAXSIZE then (true, queue ++ [task])
  else (false, queue)

/-- The worker (`_queue_worker`) takes tasks from the front of the queue, so
it only ever receives members of the queue list. -/
def worker_next (queue : List QueueTask) : Option QueueTask × List QueueTask :=
  (queue.head?, queue.tail)

/-! ## Generation timeout handling (`_process_reply_task` / `_process_followup_task`) -/

/-- `asyncio.wait_for(..., timeout=120.0)` in both task processors. -/
def LLM_TIMEOUT_SECONDS : ℚ := 120

/-- Outcome of the generation-collaborator call: either it returns a list of
reply texts within the timeout, or `asyncio.TimeoutError` is raised. -/
inductive GenerationOutcome where
  | timeout
  | ok (reply_texts : List String)
deriving DecidableEq, Repr

/-- The canned fallback reply of `_process_reply_task`'s timeout branch. -/
def TIMEOUT_FALLBACK_TEXT : String := "抱歉，我刚才走神了...你说什么？"

/-- What `_process_reply_task` sends for a dequeued reply task, given the
duplicate-context check result and the generation outcome: on timeout the
canned fallback is used as `reply_texts`, and any nonempty `reply_texts` is
sent.  `Option.none` means nothing is sent to the room. -/
def reply_task_send (is_duplicate : Bool) (g : GenerationOutcome) :
    Option (List String) :=
  if is_duplicate then Option.none
  else
    let reply_texts :=
      match g with
      | GenerationOutcome.timeout => [TIMEOUT_FALLBACK_TEXT]
      | GenerationOutcome.ok ts => ts
    if reply_texts.isEmpty then Option.none else Option.some reply_texts

/-- What `_process_followup_task` sends for a dequeued followup task, given
whether the last context message was already replied to and the generation
outcome: the `except asyncio.TimeoutError` branch is a bare `return`, so a
timeout sends nothing. -/
def followup_task_send (last_replied : Bool) (g : GenerationOutcome) :
    Option (List String) :=
  if last_replied then Option.none
  else
    match g with
    | GenerationOutcome.timeout => Option.none
    | GenerationOutcome.ok ts =>
      if ts.isEmpty then Option.none else Option.some ts

/-! ## Duplicate-context detection (`_compute_context_hash` / `_is_duplicate_context`) -/

/-- One entry of a room's context deque (`_group_contexts[group_id]`),
restricted to the fields the hash functions read. -/
structure ContextEntry where
  sender_name : String
  sender_id : Int
  content : String
  message_id : Int
  replied : Bool
deriving DecidableEq, Repr

/-- `GameHandler._get_context`: the last `limit` entries (`list(...)[-limit:]`). -/
def get_context (ctx : List ContextEntry) (limit : Nat) : List ContextEntry :=
  ctx.drop (ctx.length - limit)

/-- The per-entry fingerprint piece: Python
`f-string of message_id, a colon, and content[:30]`. -/
def hashPart (e : ContextEntry) : String :=
  toString e.message_id ++ ":" ++ String.mk (e.content.data.take 30)

/-- Python `"|".join(parts)`. -/
def joinParts : List String → String
  | [] => ""
  | [s] => s
  | s :: rest => s ++ "|" ++ joinParts rest

/-- `GameHandler._compute_context_hash` with its default `limit=5`: the
fingerprint is built from the last 5 context entries whose `sender_id` is not
the bot's.  The final `hashlib.md5(...).hexdigest()[:16]` step is modelled as
the identity on the joined fingerprint string: md5 is deterministic (equal
fingerprints give equal hashes), and the two concrete fingerprints compared in
the counterexample below, `2:b|3:c|4:d|5:e` and `3:c|4:d|5:e`, have distinct
md5 prefixes (`2ca20fbbd10ed880` and `724df40b1278e996`). -/
def compute_context_hash (selfId : Int) (ctx : List ContextEntry) : String :=
  joinParts (((get_context ctx 5).filter (fun e => ¬ (e.sender_id = selfId))).map hashPart)

/-- `GameHandler._update_context_hash`: store the current hash as the room's
`_last_replied_context_hash` entry. -/
def update_context_hash (selfId : Int) (ctx : List ContextEntry)
    (_lastHash : Option String) : Option String :=
  Option.some (compute_context_hash selfId ctx)

/-- `GameHandler._is_duplicate_context`: compare the current hash with the
stored one (`dict.get` returns `None` when absent, which never equals the
current hash string). -/
def is_duplicate_context (selfId : Int) (ctx : List ContextEntry)
    (lastHash : Option String) : Bool :=
  match lastHash with
  | Option.none => false
  | Option.some h => compute_context_hash selfId ctx == h

/-! ## Rate limiter (`src/throttle/rate_limiter.py`, config in `src/config.py`) -/

/-- `RateLimitConfig` defaults: `global_rpm=60`, `group_rpm=60`,
`user_cooldown=1.5`. -/
structure RateLimitConfig where
  global_rpm : ℚ
  group_rpm : ℚ
  user_cooldown : ℚ
deriving DecidableEq, Repr

/-- The default configuration from `src/config.py`. -/
def defaultRateLimitConfig : RateLimitConfig :=
  { global_rpm := 60, group_rpm := 60, user_cooldown := 1.5 }

/-- `TokenBucket`: capacity, per-second refill rate, current tokens, and the
time of the last lazy refill. -/
structure TokenBucket where
  capacity : ℚ
  refill_rate : ℚ
  tokens : ℚ
  last_refill : ℚ
deriving DecidableEq, Repr

/-- `TokenBucket.__init__(capacity, refill_rate)` at creation time `now`:
the bucket starts full. -/
def TokenBucket.create (capacity refill_rate now : ℚ) : TokenBucket :=
  { capacity := capacity, refill_rate := refill_rate, tokens := capacity,
    last_refill := now }

/-- `TokenBucket._refill`: `tokens = min(capacity, tokens + elapsed*rate)`. -/
def TokenBucket.refill (b : TokenBucket) (now : ℚ) : TokenBucket :=
  { b with
    tokens := min b.capacity (b.tokens + (now - b.last_refill) * b.refill_rate),
    last_refill := now }

/-- Result of `TokenBucket.acquire`: the success flag and the wait time. -/
structure AcquireResult where
  ok : Bool
  wait_time : ℚ
deriving DecidableEq, Repr

/-- `TokenBucket.acquire(tokens)`: refill lazily, deduct on success, or report
`(requested - available) / refill_rate` without deducting. -/
def TokenBucket.acquire (b : TokenBucket) (now want : ℚ) :
    AcquireResult × TokenBucket :=
  let b' := b.refill now
  if want ≤ b'.tokens then
    ({ ok := true, wait_time := 0 }, { b' with tokens := b'.tokens - want })
  else
    ({ ok := false, wait_time := (want - b'.tokens) / b'.refill_rate }, b')

/-- `ThrottleResult` enum. -/
inductive ThrottleResult where
  | allowed
  | global_limit
  | group_limit
  | user_cooldown
  | static_command
deriving DecidableEq, Repr

/-- `ThrottleInfo` (the human-readable `message` field is omitted). -/
structure ThrottleInfo where
  result : ThrottleResult
  wait_time : ℚ
deriving DecidableEq, Repr

/-- `RateLimiter.STATIC_COMMANDS`. -/
def STATIC_COMMANDS : List String :=
  ["查看背包", "背包", "物品",
   "查看属性", "属性", "状态",
   "签到", "领取", "礼包",
   "商店", "购买", "出售",
   "帮助", "help", "菜单"]

/-- Python `str.strip()` whitespace test (ASCII whitespace suffices for the
commands involved). -/
def isPySpace (c : Char) : Bool :=
  c == ' ' || c == '\t' || c == '\n' || c == '\r' || c == '\x0b' || c == '\x0c'

/-- Python `str.strip()`. -/
def pyStrip (s : String) : String :=
  String.mk (((s.data.dropWhile isPySpace).reverse.dropWhile isPySpace).reverse)

/-- `RateLimiter.is_static_command`: lowercase, strip, then test whether any
static command is a prefix. -/
def is_static_command (command : String) : Bool :=
  let cl := pyStrip (strLower command)
  STATIC_COMMANDS.any (fun c => startsWithChars cl.data c.data)

/-- Association-list read with a default (models `dict.get(key, default)`). -/
def alistGetD (l : List (κ × ν)) (k : κ) (d : ν) [DecidableEq κ] : ν :=
  match l with
  | [] => d
  | (k', v) :: rest => if k' = k then v else alistGetD rest k d

/-- Association-list read (models `key in dict` plus `dict[key]`). -/
def alistGet? (l : List (κ × ν)) (k : κ) [DecidableEq κ] : Option ν :=
  match l with
  | [] => Option.none
  | (k', v) :: rest => if k' = k then Option.some v else alistGet? rest k

/-- Association-list write (models `dict[key] = value`). -/
def alistSet (l : List (κ × ν)) (k : κ) (v : ν) [DecidableEq κ] : List (κ × ν) :=
  match l with
  | [] => [(k, v)]
  | (k', v') :: rest =>
    if k' = k then (k', v) :: rest else (k', v') :: alistSet rest k v

/-- The mutable state of `RateLimiter`: the global bucket, the per-room
buckets (`defaultdict`, created full on first access), and the per-(user,room)
cooldown timestamps. -/
structure RateLimiterState where
  global_bucket : TokenBucket
  group_buckets : List (Int × TokenBucket)
  user_last_action : List ((Int × Int) × ℚ)
deriving DecidableEq, Repr

/-- `RateLimiter.__init__` at process-start time `now`. -/
def RateLimiterState.create (cfg : RateLimitConfig) (now : ℚ) : RateLimiterState :=
  { global_bucket := TokenBucket.create cfg.global_rpm (cfg.global_rpm / 60) now,
    group_buckets := [],
    user_last_action := [] }

/-- The room's bucket as `self._group_buckets[group_id]` yields it: the stored
bucket, or a fresh full one created now by the `defaultdict` factory. -/
def group_bucket_of (cfg : RateLimitConfig) (st : RateLimiterState)
    (group_id : Int) (now : ℚ) : TokenBucket :=
  match alistGet? st.group_buckets group_id with
  | Option.some b => b
  | Option.none => TokenBucket.create cfg.group_rpm (cfg.group_rpm / 60) now

/-- `RateLimiter.check(user_id, group_id, command)`: static commands bypass
everything; then the per-(user,room) cooldown, the room bucket and the global
bucket are consulted in order, short-circuiting on the first failure; the
cooldown timestamp is written only on the `ALLOWED` path. -/
def check (cfg : RateLimitConfig) (st : RateLimiterState) (now : ℚ)
    (user_id group_id : Int) (command : String) :
    ThrottleInfo × RateLimiterState :=
  if is_static_command command then
    ({ result := ThrottleResult.static_command, wait_time := 0 }, st)
  else
    let last := alistGetD st.user_last_action (user_id, group_id) 0
    let elapsed := now - last
    if elapsed < cfg.user_cooldown then
      ({ result := ThrottleResult.user_cooldown,
         wait_time := cfg.user_cooldown - elapsed }, st)
    else
      let gb := group_bucket_of cfg st group_id now
      let r := gb.acquire now 1
      let st1 : RateLimiterState :=
        { st with group_buckets := alistSet st.group_buckets group_id r.2 }
      if ¬ r.1.ok then
        ({ result := ThrottleResult.group_limit, wait_time := r.1.wait_time }, st1)
      else
        let r2 := st1.global_bucket.acquire now 1
        let st2 : RateLimiterState := { st1 with global_bucket := r2.2 }
        if ¬ r2.1.ok then
          ({ result := ThrottleResult.global_limit, wait_time := r2.1.wait_time }, st2)
        else
          ({ result := ThrottleResult.allowed, wait_time := 0 },
           { st2 with
             user_last_action := alistSet st2.user_last_action (user_id, group_id) now })

/-- The cooldown timestamp `check` reads:
`self._user_last_action.get((user_id, group_id), 0)`. -/
def cooldown_last (st : RateLimiterState) (user_id group_id : Int) : ℚ :=
  alistGetD st.user_last_action (user_id, group_id) 0

/-- The room bucket's lazily refilled token count at the moment `check`
consults it. -/
def group_avail (cfg : RateLimitConfig) (st : RateLimiterState)
    (group_id : Int) (now : ℚ) : ℚ :=
  ((group_bucket_of cfg st group_id now).refill now).tokens

/-- The global bucket's lazily refilled token count at the moment `check`
consults it. -/
def global_avail (st : RateLimiterState) (now : ℚ) : ℚ :=
  (st.global_bucket.refill now).tokens

/-- A concrete limiter state at time 100 with the global bucket drained
(0 tokens, just refilled) and room 5's bucket full — the scenario in which
the room bucket passes but the global bucket fails. -/
def drainedGlobalState : RateLimiterState :=
  { global_bucket := { capacity := 60, refill_rate := 1, tokens := 0, last_refill := 100 },
    group_buckets :=
      [(5, { capacity := 60, refill_rate := 1, tokens := 60, last_refill := 100 })],
    user_last_action := [] }

/-! ## Theorems -/

/-! ### C1: window bound -/

theorem window_duration_bound (f now : ℚ) (p : MessagePriority)
    (h : now - f ≤ MAX_WINDOW) :
    now + calculate_window_duration f now p ≤ f + MAX_WINDOW := by
  unfold calculate_window_duration
  have h2 : max 0 (MAX_WINDOW - (now - f)) = MAX_WINDOW - (now - f) :=
    max_eq_right (by linarith)
  rw [h2]
  have h1 : min (base_window p) (MAX_WINDOW - (now - f))
      ≤ MAX_WINDOW - (now - f) := min_le_right _ _
  linarith

theorem expire_if_due_window (st : AggState) (now : ℚ) (w : OpenWindow)
    (h : (expire_if_due st now).window = Option.some w) :
    st.window = Option.some w ∧ now < w.deadline := by
  unfold expire_if_due at h
  split at h
  · next hw =>
    rw [hw] at h ⊢
    exact ⟨h, absurd h (by simp)⟩
  · next w' hw =>
    split at h
    · next => exact absurd h (by simp)
    · next hd =>
      rw [hw] at h
      cases h
      exact ⟨hw, lt_of_not_le hd⟩

theorem add_message_window (botId : Int) (kws : List String)
    (st : AggState) (e : IncomingEvent) (hb : ¬ e.user_id = botId) :
    (add_message botId kws st e).window =
      Option.some ⟨window_first_time (expire_if_due st e.now) e.now,
        e.now + calculate_window_duration
          (window_first_time (expire_if_due st e.now) e.now) e.now
          (pending_of_event kws e).priority⟩ := by
  unfold add_message
  rw [if_neg hb]

theorem add_message_preserves (botId : Int) (kws : List String)
    (st : AggState) (e : IncomingEvent) (h : WindowBounded st) :
    WindowBounded (add_message botId kws st e) := by
  intro w hw
  by_cases hb : e.user_id = botId
  · unfold add_message at hw
    rw [if_pos hb] at hw
    exact h w hw
  · rw [add_message_window botId kws st e hb] at hw
    cases hw
    show e.now + calculate_window_duration _ e.now _ ≤ _ + MAX_WINDOW
    cases hwin : (expire_if_due st e.now).window with
    | none =>
      simp only [window_first_time, hwin]
      apply window_duration_bound
      simp only [sub_self]
      norm_num [MAX_WINDOW]
    | some w0 =>
      simp only [window_first_time, hwin]
      obtain ⟨hst, hlt⟩ := expire_if_due_window st e.now w0 hwin
      have hbound := h w0 hst
      apply window_duration_bound
      linarith

theorem run_aggregator_preserves (botId : Int) (kws : List String) :
    ∀ (evs : List IncomingEvent) (st : AggState),
      WindowBounded st → WindowBounded (evs.foldl (add_message botId kws) st) := by
  intro evs
  induction evs with
  | nil => intro st h; exact h
  | cons e rest ih =>
    intro st h
    exact ih _ (add_message_preserves botId kws st e h)

/-- C1 (confirmed): for every sequence of `add_message` calls in one room,
whenever the room's window timer is armed, its firing deadline is at most
`MAX_WINDOW` after the first message of that window — because every timer
reset uses `min(base, max(0, MAX_WINDOW - elapsed))` as its duration
(`calculate_window_duration`), the window always expires and flushes within
`MAX_WINDOW` of the first message's arrival in that window.  This holds with
no spacing assumption at all (a timer whose deadline has passed has fired and
flushed before the next arrival is handled, see `expire_if_due`). -/
theorem C1_window_bound (botId : Int) (kws : List String)
    (evs : List IncomingEvent) :
    WindowBounded (run_aggregator botId kws evs) := by
  apply run_aggregator_preserves botId kws evs AggState.init
  intro w' hw'
  exact absurd hw' (by simp [AggState.init])

/-- Witness for C1: a single reply-to-bot message arriving at time 0 arms a
1-second (high-priority) timer; the theorem instantiated there yields the
concrete bound `1 ≤ 0 + MAX_WINDOW`. -/
theorem C1_window_bound_witness : (1 : ℚ) ≤ 0 + MAX_WINDOW :=
  C1_window_bound 99 defaultKeywords
    [{ message_id := 1, user_id := 7, nickname := "A", content := "hi",
       at_self := false, reply_to_bot := true, now := 0 }]
    ⟨0, 1⟩
    (by simp [run_aggregator, add_message, AggState.init, expire_if_due,
      pending_of_event, evaluate_priority, window_first_time,
      calculate_window_duration, base_window, MAX_WINDOW, HIGH_PRIORITY_WINDOW,
      NORMAL_WINDOW])

/-! ### C2: no-trigger silence -/

theorem groupTriggers_go_nil (msgs : List PendingMessage)
    (h : ∀ m ∈ msgs, m.priority = MessagePriority.low) :
    msgs.foldl
      (fun gs m => if isTriggerPriority m.priority then addToGroups gs m else gs)
      [] = [] := by
  induction msgs with
  | nil => rfl
  | cons m rest ih =>
    have hm : m.priority = MessagePriority.low := h m (List.mem_cons_self m rest)
    have hrest : ∀ m' ∈ rest, m'.priority = MessagePriority.low :=
      fun m' hm' => h m' (List.mem_cons_of_mem m hm')
    simp only [List.foldl_cons, hm]
    exact ih hrest

/-- C2 (confirmed): when a window expires with every pending message of
priority `LOW`, `_process_aggregated_messages` emits no `AggregatedTask` (the
task handler, invoked exactly on an `Except.ok (Option.some _)` result, is
never called) and the batch is discarded. -/
theorem C2_no_trigger_silence (gid : Int) (now : ℚ) (msgs : List PendingMessage)
    (h : ∀ m ∈ msgs, m.priority = MessagePriority.low) :
    process_aggregated_messages gid now msgs = Except.ok Option.none := by
  unfold process_aggregated_messages
  by_cases he : msgs.isEmpty
  · rw [if_pos he]
  · rw [if_neg he]
    have hg : groupTriggers msgs = [] := groupTriggers_go_nil msgs h
    rw [hg]
    simp

/-- Witness for C2: a window holding a single `LOW` message produces no task. -/
theorem C2_no_trigger_silence_witness :
    process_aggregated_messages 100 10
      [{ message_id := 1, user_id := 7, nickname := "A", content := "hello",
         at_self := false, reply_to_bot := false, timestamp := 0,
         priority := MessagePriority.low }] = Except.ok Option.none :=
  C2_no_trigger_silence 100 10
    [{ message_id := 1, user_id := 7, nickname := "A", content := "hello",
       at_self := false, reply_to_bot := false, timestamp := 0,
       priority := MessagePriority.low }]
    (by decide)

/-! ### C3: target grouping (code bug: `min` over a plain `Enum`) -/

/-- C3 (code bug): in `_process_aggregated_messages`, the per-user highest
priority is computed as `min(m.priority for m in user_msgs)` where
`MessagePriority` is a plain `enum.Enum`.  Plain enum members do not support
`<`, and Python's `min` compares as soon as the iterable has two elements, so
the flush raises `TypeError` whenever any user sent two or more trigger
messages in one window — exactly the multi-message-per-user scenario the spec
describes (user A with 2 messages).  No task is emitted; the batch is lost.
Here: two HIGH-priority messages from user 7 make the flush raise. -/
theorem C3_min_priority_typeerror :
    process_aggregated_messages 100 10
      [{ message_id := 1, user_id := 7, nickname := "A", content := "hi",
         at_self := true, reply_to_bot := false, timestamp := 0,
         priority := MessagePriority.high },
       { message_id := 2, user_id := 7, nickname := "A", content := "hi again",
         at_self := true, reply_to_bot := false, timestamp := 1,
         priority := MessagePriority.high }] =
      Except.error PyError.typeError := rfl

/-! ### C4: dual-timer invariant -/

theorem reply_mode_step_preserves (st : Option ReplyModeState) (s : ReplyModeStep)
    (h : ShortImpliesLong st) : ShortImpliesLong (applyReplyModeStep st s) := by
  cases s with
  | activateLong g t =>
    intro _
    rfl
  | resetTimers t =>
    cases st with
    | none => exact h
    | some s0 =>
      by_cases hl : s0.long_timer_active
      · simp only [applyReplyModeStep, reset_reply_mode_timers, activate_short_timer,
          hl, if_true, not_true, if_false]
        intro _
        rfl
      · simp only [applyReplyModeStep, reset_reply_mode_timers, hl, if_false]
        exact h
  | activateShort t =>
    cases st with
    | none => exact h
    | some s0 =>
      by_cases hl : s0.long_timer_active
      · simp only [applyReplyModeStep, activate_short_timer, hl, not_true, if_false]
        intro _
        rfl
      · simp only [applyReplyModeStep, activate_short_timer, hl, not_false_iff, if_true]
        exact h
  | tick env =>
    cases st with
    | none => exact h
    | some s0 =>
      by_cases h1 : s0.long_timer_active
      case neg =>
        simp only [applyReplyModeStep, reply_mode_tick, h1, not_false_iff, if_true]
        exact h
      case pos =>
        by_cases h2 : env.now < env.quiet_until
        case pos =>
          simp only [applyReplyModeStep, reply_mode_tick, h1, not_true, if_false,
            h2, if_true]
          exact h
        case neg =>
          by_cases h3 : LONG_TIMER_DURATION < env.now - s0.long_timer_start
          case pos =>
            simp only [applyReplyModeStep, reply_mode_tick, h1, not_true, if_false,
              h2, h3, if_true]
            intro hc
            exact absurd hc (by simp)
          case neg =>
            by_cases h4 : s0.short_timer_pending
            case neg =>
              simp only [applyReplyModeStep, reply_mode_tick, h1, not_true, if_false,
                h2, h3, h4, not_false_iff, if_true]
              exact h
            case pos =>
              by_cases h5 : env.now - s0.short_timer_start < SHORT_TIMER_DELAY
              case pos =>
                simp only [applyReplyModeStep, reply_mode_tick, h1, not_true, if_false,
                  h2, h3, h4, h5, if_true]
                exact h
              case neg =>
                simp only [applyReplyModeStep, reply_mode_tick, h1, not_true, if_false,
                  h2, h3, h4, h5]
                by_cases h6 : env.has_context && env.last_is_bot
                all_goals by_cases h7 : env.has_context && env.last_replied
                all_goals simp only [h6, h7, if_true, if_false]
                all_goals intro hc
                all_goals exact absurd hc (by simp)

/-- C4 (confirmed): across any sequence of `_activate_reply_mode`,
`_reset_reply_mode_timers`, `_activate_short_timer` and background-loop
(`_reply_mode_loop`) steps on one room, the state never has
`short_timer_pending` true while `long_timer_active` is false. -/
theorem C4_dual_timer_invariant (steps : List ReplyModeStep) :
    ShortImpliesLong (run_reply_mode steps) := by
  unfold run_reply_mode
  have main : ∀ (ss : List ReplyModeStep) (st : Option ReplyModeState),
      ShortImpliesLong st → ShortImpliesLong (ss.foldl applyReplyModeStep st) := by
    intro ss
    induction ss with
    | nil => intro st h; exact h
    | cons s rest ih =>
      intro st h
      exact ih _ (reply_mode_step_preserves st s h)
  exact main steps Option.none trivial

/-- Witness for C4: the invariant for a concrete operation sequence —
activate the long window, a user message re-arms the short timer, and a later
scan tick fires it. -/
theorem C4_dual_timer_invariant_witness :
    ShortImpliesLong (run_reply_mode
      [ReplyModeStep.activateLong true 0, ReplyModeStep.resetTimers 1,
       ReplyModeStep.tick
         { now := 7, quiet_until := 0, has_context := true,
           last_is_bot := false, last_replied := false }]) :=
  C4_dual_timer_invariant
    [ReplyModeStep.activateLong true 0, ReplyModeStep.resetTimers 1,
     ReplyModeStep.tick
       { now := 7, quiet_until := 0, has_context := true,
         last_is_bot := false, last_replied := false }]

/-! ### C7: generation-timeout fallback (corrected) -/

/-- C7 counterexample: for a dequeued followup task whose generation call
times out, `_process_followup_task` returns from its `except TimeoutError`
branch without sending anything — silence, not the canned fallback the claim
asserts for every task type. -/
theorem C7_followup_timeout_silence :
    followup_task_send false GenerationOutcome.timeout = Option.none := rfl

/-- C7 (corrected): the canned apologetic fallback on a 120-second generation
timeout applies to reply tasks only — `_process_reply_task` substitutes
`TIMEOUT_FALLBACK_TEXT` and sends it, while `_process_followup_task` sends
nothing on timeout regardless of the last-replied check. -/
theorem C7_timeout_fallback_amended :
    reply_task_send false GenerationOutcome.timeout
        = Option.some [TIMEOUT_FALLBACK_TEXT]
    ∧ ∀ r : Bool, followup_task_send r GenerationOutcome.timeout = Option.none := by
  constructor
  · rfl
  · intro r
    cases r <;> rfl

/-! ### C8: backpressure on a full room queue -/

/-- C8 (confirmed): `_enqueue_reply_task` appends the task in FIFO position
and returns `true` while the room's queue (capacity `QUEUE_MAXSIZE = 5`) has
free space; when the queue already holds 5 tasks it returns `false`, the
queue contents are unchanged, a task not already queued is absent from the
resulting queue, and the worker's view of the queue (`worker_next`) is
exactly what it was — the dropped task is never delivered. -/
theorem C8_backpressure (q : List QueueTask) (t : QueueTask) :
    (q.length < QUEUE_MAXSIZE → enqueue_reply_task q t = (true, q ++ [t]))
    ∧ (q.length = QUEUE_MAXSIZE →
        enqueue_reply_task q t = (false, q)
        ∧ (t ∉ q → t ∉ (enqueue_reply_task q t).2)
        ∧ worker_next (enqueue_reply_task q t).2 = worker_next q) := by
  constructor
  · intro hlt
    unfold enqueue_reply_task
    rw [if_pos hlt]
  · intro heq
    have hnot : ¬ q.length < QUEUE_MAXSIZE := by omega
    have hfull : enqueue_reply_task q t = (false, q) := by
      unfold enqueue_reply_task
      rw [if_neg hnot]
    refine ⟨hfull, ?_, ?_⟩
    · intro hmem
      rw [hfull]
      exact hmem
    · rw [hfull]

/-- Witness for C8: a queue holding 5 followup tasks rejects a 6th, leaving
the queue (and hence everything the worker will ever dequeue) unchanged. -/
theorem C8_backpressure_witness :
    enqueue_reply_task
      [⟨"followup", 1⟩, ⟨"followup", 2⟩, ⟨"followup", 3⟩,
       ⟨"followup", 4⟩, ⟨"followup", 5⟩] ⟨"followup", 6⟩ =
      (false,
       [⟨"followup", 1⟩, ⟨"followup", 2⟩, ⟨"followup", 3⟩,
        ⟨"followup", 4⟩, ⟨"followup", 5⟩]) :=
  ((C8_backpressure
    [⟨"followup", 1⟩, ⟨"followup", 2⟩, ⟨"followup", 3⟩,
     ⟨"followup", 4⟩, ⟨"followup", 5⟩] ⟨"followup", 6⟩).2 (by decide)).1

/-! ### C6: token-bucket conservation -/

/-- C6 (confirmed): a bucket created full with capacity `C` and rate `R` at
time `s` grants an acquire of `k ≤ C` tokens immediately (leaving `C - k`
tokens), the lazily refilled count `t` seconds later is
`min(C, C - k + t*R)`, and in general an acquire succeeds exactly when the
refilled count covers the request, while a failed acquire reports
`(requested - available) / R` and leaves the (refilled) token count
undeducted. -/
theorem C6_token_bucket (C R k t s : ℚ) (hR : 0 < R) (hk0 : 0 ≤ k)
    (hkC : k ≤ C) (ht : 0 ≤ t) :
    ((TokenBucket.create C R s).acquire s k).1 = { ok := true, wait_time := 0 }
    ∧ (((TokenBucket.create C R s).acquire s k).2).tokens = C - k
    ∧ ((((TokenBucket.create C R s).acquire s k).2).refill (s + t)).tokens
        = min C (C - k + t * R)
    ∧ (∀ (b : TokenBucket) (now req : ℚ),
        ((b.acquire now req).1.ok = true ↔ req ≤ (b.refill now).tokens)
        ∧ ((b.refill now).tokens < req →
            (b.acquire now req).1
              = { ok := false,
                  wait_time := (req - (b.refill now).tokens) / b.refill_rate }
            ∧ (b.acquire now req).2 = b.refill now)) := by
  have hfull : (TokenBucket.create C R s).refill s = TokenBucket.create C R s := by
    unfold TokenBucket.create TokenBucket.refill
    simp
  have hacq : (TokenBucket.create C R s).acquire s k =
      ({ ok := true, wait_time := 0 },
       { capacity := C, refill_rate := R, tokens := C - k, last_refill := s }) := by
    unfold TokenBucket.acquire
    rw [hfull]
    have : k ≤ (TokenBucket.create C R s).tokens := hkC
    rw [if_pos this]
    rfl
  refine ⟨by rw [hacq], by rw [hacq], ?_, ?_⟩
  · rw [hacq]
    unfold TokenBucket.refill
    simp only
    ring_nf
  · intro b now req
    constructor
    · unfold TokenBucket.acquire
      by_cases hle : req ≤ (b.refill now).tokens
      · rw [if_pos hle]
        simpa using hle
      · rw [if_neg hle]
        simpa using hle
    · intro hlt
      have hle : ¬ req ≤ (b.refill now).tokens := not_le_of_lt hlt
      unfold TokenBucket.acquire
      rw [if_neg hle]
      constructor
      · rfl
      · rfl

/-- Witness for C6: capacity 60, rate 1/s, 10 tokens acquired at time 0,
refilled 3 seconds later. -/
theorem C6_token_bucket_witness :
    ((((TokenBucket.create 60 1 0).acquire 0 10).2).refill (0 + 3)).tokens
      = min 60 (60 - 10 + 3 * 1) :=
  (C6_token_bucket 60 1 10 3 0 (by norm_num) (by norm_num) (by norm_num)
    (by norm_num)).2.2.1

/-! ### C5: rate-limiter check order -/

theorem acquire_ok_eq (b : TokenBucket) (now req : ℚ)
    (h : req ≤ (b.refill now).tokens) :
    b.acquire now req =
      ({ ok := true, wait_time := 0 },
       { b.refill now with tokens := (b.refill now).tokens - req }) := by
  unfold TokenBucket.acquire
  rw [if_pos h]

theorem acquire_fail_eq (b : TokenBucket) (now req : ℚ)
    (h : (b.refill now).tokens < req) :
    b.acquire now req =
      ({ ok := false,
         wait_time := (req - (b.refill now).tokens) / b.refill_rate },
       b.refill now) := by
  unfold TokenBucket.acquire
  rw [if_neg (not_le_of_lt h)]
  rfl

/-- C5 (confirmed): with the default configuration, `check` first returns
`STATIC_COMMAND` for allow-listed commands without touching any state;
otherwise it evaluates, in order and short-circuiting on the first failure,
the per-(user,room) cooldown (1.5 s, returning `USER_COOLDOWN` with the
remaining wait and untouched state), the per-room bucket (60/min, returning
`GROUP_LIMIT` with wait = token deficit ÷ refill rate, global bucket and
cooldown map untouched), and the global bucket (60/min, returning
`GLOBAL_LIMIT` with wait = deficit ÷ rate, cooldown map untouched);
`ALLOWED` is returned only when all levels pass. -/
theorem C5_check_order (st : RateLimiterState) (now : ℚ) (u g : Int)
    (cmd : String) :
    (is_static_command cmd = true →
      check defaultRateLimitConfig st now u g cmd
        = ({ result := ThrottleResult.static_command, wait_time := 0 }, st))
    ∧ (is_static_command cmd = false →
        now - cooldown_last st u g < 1.5 →
        check defaultRateLimitConfig st now u g cmd
          = ({ result := ThrottleResult.user_cooldown,
               wait_time := 1.5 - (now - cooldown_last st u g) }, st))
    ∧ (is_static_command cmd = false →
        ¬ now - cooldown_last st u g < 1.5 →
        group_avail defaultRateLimitConfig st g now < 1 →
        (check defaultRateLimitConfig st now u g cmd).1
            = { result := ThrottleResult.group_limit,
                wait_time := (1 - group_avail defaultRateLimitConfig st g now)
                  / (group_bucket_of defaultRateLimitConfig st g now).refill_rate }
          ∧ (check defaultRateLimitConfig st now u g cmd).2.global_bucket
              = st.global_bucket
          ∧ (check defaultRateLimitConfig st now u g cmd).2.user_last_action
              = st.user_last_action)
    ∧ (is_static_command cmd = false →
        ¬ now - cooldown_last st u g < 1.5 →
        1 ≤ group_avail defaultRateLimitConfig st g now →
        global_avail st now < 1 →
        (check defaultRateLimitConfig st now u g cmd).1
            = { result := ThrottleResult.global_limit,
                wait_time := (1 - global_avail st now)
                  / st.global_bucket.refill_rate }
          ∧ (check defaultRateLimitConfig st now u g cmd).2.user_last_action
              = st.user_last_action)
    ∧ (is_static_command cmd = false →
        ¬ now - cooldown_last st u g < 1.5 →
        1 ≤ group_avail defaultRateLimitConfig st g now →
        1 ≤ global_avail st now →
        (check defaultRateLimitConfig st now u g cmd).1
          = { result := ThrottleResult.allowed, wait_time := 0 }) := by
  refine ⟨?_, ?_, ?_, ?_, ?_⟩
  · intro h1
    unfold check
    rw [if_pos h1]
  · intro h1 h2
    have h2' : now - alistGetD st.user_last_action (u, g) 0
        < defaultRateLimitConfig.user_cooldown := h2
    unfold check
    rw [if_neg (by simp [h1]), if_pos h2']
    rfl
  · intro h1 h2 h3
    have h2' : ¬ now - alistGetD st.user_last_action (u, g) 0
        < defaultRateLimitConfig.user_cooldown := h2
    have h3' : ((group_bucket_of defaultRateLimitConfig st g now).refill now).tokens
        < 1 := h3
    simp only [check]
    rw [if_neg (by simp [h1]), if_neg h2', acquire_fail_eq _ _ _ h3']
    simp only [Bool.not_false, if_true, not_false_iff]
    exact ⟨rfl, rfl, rfl⟩
  · intro h1 h2 h3 h4
    have h2' : ¬ now - alistGetD st.user_last_action (u, g) 0
        < defaultRateLimitConfig.user_cooldown := h2
    have h3' : (1 : ℚ)
        ≤ ((group_bucket_of defaultRateLimitConfig st g now).refill now).tokens := h3
    have h4' : (st.global_bucket.refill now).tokens < 1 := h4
    simp only [check]
    rw [if_neg (by simp [h1]), if_neg h2', acquire_ok_eq _ _ _ h3',
      acquire_fail_eq _ _ _ h4']
    simp only [not_true, if_false, Bool.not_true, not_false_iff, if_true]
    exact ⟨rfl, rfl⟩
  · intro h1 h2 h3 h4
    have h2' : ¬ now - alistGetD st.user_last_action (u, g) 0
        < defaultRateLimitConfig.user_cooldown := h2
    have h3' : (1 : ℚ)
        ≤ ((group_bucket_of defaultRateLimitConfig st g now).refill now).tokens := h3
    have h4' : (1 : ℚ) ≤ (st.global_bucket.refill now).tokens := h4
    simp only [check]
    rw [if_neg (by simp [h1]), if_neg h2', acquire_ok_eq _ _ _ h3',
      acquire_ok_eq _ _ _ h4']
    simp only [not_true, if_false]

/-- Witness for C5: at a fresh limiter state, a non-static command one second
after start hits the 1.5-second user cooldown. -/
theorem C5_check_order_witness :
    check defaultRateLimitConfig (RateLimiterState.create defaultRateLimitConfig 0)
        1 1 2 "hi"
      = ({ result := ThrottleResult.user_cooldown,
           wait_time := 1.5 -
             (1 - cooldown_last (RateLimiterState.create defaultRateLimitConfig 0) 1 2) },
         RateLimiterState.create defaultRateLimitConfig 0) :=
  (C5_check_order (RateLimiterState.create defaultRateLimitConfig 0) 1 1 2 "hi").2.1
    (by decide)
    (by norm_num [cooldown_last, alistGetD, RateLimiterState.create])

/-! ### C10: the multi-level check is not atomic -/

theorem alistGet?_alistSet [DecidableEq κ] (l : List (κ × ν)) (k : κ) (v : ν) :
    alistGet? (alistSet l k v) k = Option.some v := by
  induction l with
  | nil => simp [alistSet, alistGet?]
  | cons p rest ih =>
    by_cases hk : p.1 = k
    · simp [alistSet, alistGet?, hk]
    · simp only [alistSet]
      rw [if_neg hk]
      simp only [alistGet?]
      rw [if_neg hk]
      exact ih

/-- C10 (confirmed): when a non-static command passes the cooldown and the
room-bucket level but the global bucket fails, `check` returns
`GLOBAL_LIMIT` while the token already deducted from the room's bucket stays
deducted — the stored room bucket is the refilled bucket minus one token —
and the cooldown map is untouched; the cooldown timestamp changes only when
the result is `ALLOWED`. -/
theorem C10_check_not_atomic (st : RateLimiterState) (now : ℚ) (u g : Int)
    (cmd : String) :
    (is_static_command cmd = false →
      ¬ now - cooldown_last st u g < 1.5 →
      1 ≤ group_avail defaultRateLimitConfig st g now →
      global_avail st now < 1 →
      (check defaultRateLimitConfig st now u g cmd).1.result
          = ThrottleResult.global_limit
        ∧ alistGet? (check defaultRateLimitConfig st now u g cmd).2.group_buckets g
            = Option.some
              { (group_bucket_of defaultRateLimitConfig st g now).refill now with
                tokens := group_avail defaultRateLimitConfig st g now - 1 }
        ∧ (check defaultRateLimitConfig st now u g cmd).2.user_last_action
            = st.user_last_action)
    ∧ ((check defaultRateLimitConfig st now u g cmd).2.user_last_action
          ≠ st.user_last_action →
        (check defaultRateLimitConfig st now u g cmd).1.result
          = ThrottleResult.allowed) := by
  constructor
  · intro h1 h2 h3 h4
    have h2' : ¬ now - alistGetD st.user_last_action (u, g) 0
        < defaultRateLimitConfig.user_cooldown := h2
    have h3' : (1 : ℚ)
        ≤ ((group_bucket_of defaultRateLimitConfig st g now).refill now).tokens := h3
    have h4' : (st.global_bucket.refill now).tokens < 1 := h4
    refine ⟨?_, ?_, ?_⟩ <;>
      (simp only [check]
       rw [if_neg (by simp [h1]), if_neg h2', acquire_ok_eq _ _ _ h3',
         acquire_fail_eq _ _ _ h4', if_neg (by simp), if_pos (by simp)])
    all_goals first
      | rfl
      | exact alistGet?_alistSet st.group_buckets g _
  · intro hne
    by_cases h1 : is_static_command cmd
    · exfalso
      apply hne
      simp only [check]
      rw [if_pos h1]
    · by_cases h2 : now - alistGetD st.user_last_action (u, g) 0
          < defaultRateLimitConfig.user_cooldown
      · exfalso
        apply hne
        simp only [check]
        rw [if_neg (by simp [h1]), if_pos h2]
      · by_cases h3 : (1 : ℚ)
            ≤ ((group_bucket_of defaultRateLimitConfig st g now).refill now).tokens
        · by_cases h4 : (1 : ℚ) ≤ (st.global_bucket.refill now).tokens
          · simp only [check]
            rw [if_neg (by simp [h1]), if_neg h2, acquire_ok_eq _ _ _ h3,
              acquire_ok_eq _ _ _ h4, if_neg (by simp), if_neg (by simp)]
          · exfalso
            apply hne
            simp only [check]
            rw [if_neg (by simp [h1]), if_neg h2, acquire_ok_eq _ _ _ h3,
              acquire_fail_eq _ _ _ (lt_of_not_le h4), if_neg (by simp),
              if_pos (by simp)]
        · exfalso
          apply hne
          simp only [check]
          rw [if_neg (by simp [h1]), if_neg h2,
            acquire_fail_eq _ _ _ (lt_of_not_le h3), if_pos (by simp)]

/-- Witness for C10: at `drainedGlobalState` (room 5's bucket full, global
bucket empty), a non-static command is rejected with `GLOBAL_LIMIT` and the
room bucket stays one token short. -/
theorem C10_check_not_atomic_witness :
    (check defaultRateLimitConfig drainedGlobalState 100 9 5 "hi").1.result
        = ThrottleResult.global_limit
      ∧ alistGet? (check defaultRateLimitConfig drainedGlobalState 100 9 5 "hi").2.group_buckets 5
          = Option.some
            { (group_bucket_of defaultRateLimitConfig drainedGlobalState 5 100).refill 100 with
              tokens := group_avail defaultRateLimitConfig drainedGlobalState 5 100 - 1 }
      ∧ (check defaultRateLimitConfig drainedGlobalState 100 9 5 "hi").2.user_last_action
          = drainedGlobalState.user_last_action :=
  (C10_check_not_atomic drainedGlobalState 100 9 5 "hi").1
    (by decide)
    (by norm_num [cooldown_last, alistGetD, drainedGlobalState])
    (by norm_num [group_avail, group_bucket_of, alistGet?, TokenBucket.refill,
      drainedGlobalState])
    (by norm_num [global_avail, TokenBucket.refill, drainedGlobalState])

/-! ### C9: duplicate-context skip (corrected) -/

/-- C9 counterexample: `_compute_context_hash` truncates to the last 5
entries *before* filtering out bot entries, so a new **bot** message can push
a non-bot entry out of the 5-entry window and change the hash.  Concretely:
after replying (context = five user messages 1..5 then the bot's reply,
hash fingerprint `2:b|3:c|4:d|5:e`), one more bot message arrives and no new
non-bot message arrives; the fingerprint becomes `3:c|4:d|5:e`, so
`_is_duplicate_context` returns `false` although the claim says `true`
(`md5` prefixes of the two fingerprints: `2ca20fbbd10ed880` vs
`724df40b1278e996`). -/
theorem C9_duplicate_context_counterexample :
    is_duplicate_context 0
      [⟨"u", 1, "a", 1, false⟩, ⟨"u", 1, "b", 2, false⟩, ⟨"u", 1, "c", 3, false⟩,
       ⟨"u", 1, "d", 4, false⟩, ⟨"u", 1, "e", 5, false⟩,
       ⟨"bot", 0, "r", 100, false⟩, ⟨"bot", 0, "r2", 101, false⟩]
      (update_context_hash 0
        [⟨"u", 1, "a", 1, false⟩, ⟨"u", 1, "b", 2, false⟩, ⟨"u", 1, "c", 3, false⟩,
         ⟨"u", 1, "d", 4, false⟩, ⟨"u", 1, "e", 5, false⟩,
         ⟨"bot", 0, "r", 100, false⟩]
        Option.none) = false := by decide

/-- C9 (corrected): the context hash is computed only from the entries not
authored by the bot among the last 5 context entries, using the message id
and the content truncated to 30 characters — two contexts agreeing on that
data hash identically; and if `_update_context_hash` was called and **no new
message of any kind** (bot messages included) has since been appended to the
room's context, a subsequent `_is_duplicate_context` returns true.  (The
original claim allowed new bot messages between the two calls; the
counterexample shows a bot message can shift the last-5 window and break the
match.) -/
theorem C9_duplicate_context_amended :
    (∀ (selfId : Int) (ctx1 ctx2 : List ContextEntry),
      ((get_context ctx1 5).filter (fun e => ¬ (e.sender_id = selfId))).map
          (fun e => (e.message_id, e.content.data.take 30))
        = ((get_context ctx2 5).filter (fun e => ¬ (e.sender_id = selfId))).map
          (fun e => (e.message_id, e.content.data.take 30)) →
      compute_context_hash selfId ctx1 = compute_context_hash selfId ctx2)
    ∧ (∀ (selfId : Int) (ctx : List ContextEntry) (lastH : Option String),
        is_duplicate_context selfId ctx (update_context_hash selfId ctx lastH)
          = true) := by
  constructor
  · intro selfId ctx1 ctx2 h
    unfold compute_context_hash
    have h1 := congrArg
      (List.map (fun p : Int × List Char => toString p.1 ++ ":" ++ String.mk p.2)) h
    rw [List.map_map, List.map_map] at h1
    have h2 : ((get_context ctx1 5).filter (fun e => ¬ (e.sender_id = selfId))).map
          hashPart
        = ((get_context ctx2 5).filter (fun e => ¬ (e.sender_id = selfId))).map
          hashPart := h1
    rw [h2]
  · intro selfId ctx lastH
    unfold is_duplicate_context update_context_hash
    simp

/-- Witness for C9: two contexts that agree on the non-bot data among their
last five entries (the second has an extra bot entry, which the hash
ignores while the window is not overfull) hash identically. -/
theorem C9_duplicate_context_amended_witness :
    compute_context_hash 0 [⟨"u", 1, "a", 1, false⟩]
      = compute_context_hash 0
          [⟨"u", 1, "a", 1, false⟩, ⟨"bot", 0, "r", 9, false⟩] :=
  C9_duplicate_context_amended.1 0 [⟨"u", 1, "a", 1, false⟩]
    [⟨"u", 1, "a", 1, false⟩, ⟨"bot", 0, "r", 9, false⟩] (by decide)

end Daiyosei
